import Mathlib

/-!
Shallow embedding of the response-normalization layer and the two operations
of the ichatbio-ncbi-agent repository
(src/entrypoints/find_sequence_records.py and src/entrypoints/get_sequence_record.py).

Python values produced by `xmltodict.parse` are modelled by `PyVal`
(strings, `None`, dicts, lists; `pyInt` covers the integer default `0`
passed to `dict.get`, `pySet` covers the set literal used in artifact
metadata).  Python exceptions are modelled by `PyExc`.  The two `run`
coroutines are modelled as pure functions from their parameters and the
HTTP responses they would observe to a trace of emitted events
(`log` / `httpGet` / `artifact` / `reply`) together with the exception, if
any, that escapes the coroutine.  `xmltodict.parse` itself is an external
library; its outcome on a given response body is taken as an input
(`XmlParse`): either the parsed root dictionary or a raised exception.
CPython facts relied on and recorded here: `xmltodict.parse` returns a
dict whose keys are the root elements; on text that is not well-formed XML
it raises `xml.parsers.expat.ExpatError`, which subclasses `Exception`
directly (it is neither a `ValueError` nor a `defusedxml.DefusedXmlException`);
`defusedxml.DefusedXmlException` subclasses `ValueError` but is never raised
by `xmltodict`, which disables entity expansion silently.
-/

set_option autoImplicit false
set_option maxRecDepth 16384

namespace NCBIAgent

/-- Python values as produced by `xmltodict.parse` and used by the agent code:
strings, `None` (empty XML elements), nested dicts, lists of repeated
elements; `pyInt` models Python integers (the literal `0` default), and
`pySet` models the set literal `{parameters.search_terms}`. -/
inductive PyVal where
  | pyNone
  | pyInt (n : Int)
  | pyStr (s : String)
  | pyList (xs : List PyVal)
  | pyDict (entries : List (String × PyVal))
  | pySet (xs : List PyVal)
deriving Repr

/-- Python exceptions that the modelled code can raise or catch. -/
inductive PyExc where
  | valueError (msg : String)
  | typeError (msg : String)
  | attributeError (msg : String)
  | expatError (msg : String)
  | defusedXmlError (msg : String)
  | unboundLocalError (msg : String)
deriving Repr, DecidableEq

/-- Python truthiness for the modelled values: `None`, `0`, empty strings and
empty containers are falsy. -/
def PyVal.truthy : PyVal → Bool
  | .pyNone => false
  | .pyInt n => n != 0
  | .pyStr s => !s.data.isEmpty
  | .pyList xs => !xs.isEmpty
  | .pyDict es => !es.isEmpty
  | .pySet xs => !xs.isEmpty

/-- Python `s.replace(" ", "+")` as applied to the search terms: with a
one-character pattern, substring replacement is exactly per-character
substitution. -/
def replaceSpaces (s : String) : String :=
  ⟨s.data.map fun c => if c = ' ' then '+' else c⟩

/-- Python `s.startswith(p)`: character-level test that `p` is a leading
segment of `s`. -/
def pyStartsWith (s p : String) : Bool :=
  List.isPrefixOf p.data s.data

/-- Python slice `s[:n]` on a string: the first `n` characters. -/
def pyTake (s : String) (n : Nat) : String :=
  ⟨s.data.take n⟩

/-- First-match lookup in an association list, modelling Python dict indexing
(keys produced by `xmltodict` are unique, so first match suffices). -/
def dictLookup (es : List (String × PyVal)) (k : String) : Option PyVal :=
  match es with
  | [] => none
  | (k2, v) :: rest => if k2 = k then some v else dictLookup rest k

/-- Python `v.get(k, default)`: defined on dicts, raises `AttributeError`
on every other receiver (e.g. `None.get` or `"text".get`). -/
def PyVal.get (v : PyVal) (k : String) (dflt : PyVal) : Except PyExc PyVal :=
  match v with
  | .pyDict es => .ok ((dictLookup es k).getD dflt)
  | _ => .error (.attributeError ("object has no attribute " ++ "\x27" ++ "get" ++ "\x27"))

/-- Decimal value of a digit list. -/
def digitsToNat (cs : List Char) : Nat :=
  cs.foldl (fun n c => n * 10 + (c.toNat - '0'.toNat)) 0

/-- Python `int(s)` on a string: surrounding whitespace and an optional
single sign are accepted around a nonempty run of decimal digits; anything
else raises `ValueError` naming the original literal.  (Python additionally
accepts underscores between digits; that detail is not exercised here.) -/
def pyIntOfString (s : String) : Except PyExc Int :=
  let t := ((s.data.dropWhile Char.isWhitespace).reverse.dropWhile Char.isWhitespace).reverse
  let r : Option Int :=
    match t with
    | '+' :: ds => if !ds.isEmpty && ds.all Char.isDigit then some (digitsToNat ds) else none
    | '-' :: ds => if !ds.isEmpty && ds.all Char.isDigit then some (-(digitsToNat ds : Int)) else none
    | ds => if !ds.isEmpty && ds.all Char.isDigit then some (digitsToNat ds) else none
  match r with
  | some n => .ok n
  | none => .error (.valueError ("invalid literal for int() with base 10: \x27" ++ s ++ "\x27"))

/-- Python `int(v)`: integers pass through, strings are parsed, `None` and
containers raise `TypeError`. -/
def pyInt : PyVal → Except PyExc Int
  | .pyInt n => .ok n
  | .pyStr s => pyIntOfString s
  | _ => .error (.typeError "int() argument must be a string, a bytes-like object or a real number")

mutual

/-- Python `str(v)` / f-string interpolation.  Exact for the cases the agent
renders (strings, `None`, integers); containers get a bracketed rendering
standing in for the Python repr, which no theorem below depends on. -/
def pyRender : PyVal → String
  | .pyNone => "None"
  | .pyInt n => toString n
  | .pyStr s => s
  | .pyList xs => "[" ++ pyRenderList xs ++ "]"
  | .pyDict es => "\x7b" ++ pyRenderEntries es ++ "\x7d"
  | .pySet xs => "\x7b" ++ pyRenderList xs ++ "\x7d"

/-- Rendering of a value nested inside a container (Python repr quotes
nested strings). -/
def pyRenderItem : PyVal → String
  | .pyStr s => "\x27" ++ s ++ "\x27"
  | .pyNone => "None"
  | .pyInt n => toString n
  | .pyList xs => "[" ++ pyRenderList xs ++ "]"
  | .pyDict es => "\x7b" ++ pyRenderEntries es ++ "\x7d"
  | .pySet xs => "\x7b" ++ pyRenderList xs ++ "\x7d"

/-- Comma-joined rendering of container elements. -/
def pyRenderList : List PyVal → String
  | [] => ""
  | [x] => pyRenderItem x
  | x :: rest => pyRenderItem x ++ ", " ++ pyRenderList rest

/-- Comma-joined rendering of dict entries. -/
def pyRenderEntries : List (String × PyVal) → String
  | [] => ""
  | [(k, v)] => "\x27" ++ k ++ "\x27: " ++ pyRenderItem v
  | (k, v) :: rest => "\x27" ++ k ++ "\x27: " ++ pyRenderItem v ++ ", " ++ pyRenderEntries rest

end

/-- Python `len(v)`: length of strings and containers, `TypeError` otherwise. -/
def pyLen : PyVal → Except PyExc Nat
  | .pyStr s => .ok s.length
  | .pyList xs => .ok xs.length
  | .pyDict es => .ok es.length
  | .pySet xs => .ok xs.length
  | _ => .error (.typeError "object has no len()")

/-- Python slice `v[:n]` for the receivers it is applied to here. -/
def pySliceTo (v : PyVal) (n : Nat) : Except PyExc PyVal :=
  match v with
  | .pyStr s => .ok (.pyStr (pyTake s n))
  | .pyList xs => .ok (.pyList (xs.take n))
  | _ => .error (.typeError "object is not subscriptable")

/-- The `SearchResults` pydantic model of find_sequence_records.py. -/
structure SearchResults where
  count : Int
  page : Int
  page_size : Int
  sequence_ids : List String := []
  errors : List String := []
  warnings : List String := []
deriving Repr, DecidableEq

/-- Minimal JSON string escaping used by the serialization model. -/
def jsonEscape (s : String) : String :=
  s.data.foldl (fun acc c =>
    acc ++ (if c = '\\' then "\\\\"
            else if c = '"' then "\\\""
            else if c = '\n' then "\\n"
            else if c = '\t' then "\\t"
            else if c = '\r' then "\\r"
            else String.singleton c)) ""

/-- JSON rendering of a string value. -/
def jsonStr (s : String) : String := "\"" ++ jsonEscape s ++ "\""

/-- JSON rendering of a list of strings. -/
def jsonStrList (xs : List String) : String :=
  "[" ++ String.intercalate "," (xs.map jsonStr) ++ "]"

/-- Model of pydantic `model_dump_json()` on `SearchResults`: compact JSON in
field declaration order. -/
def SearchResults.model_dump_json (r : SearchResults) : String :=
  "\x7b\"count\":" ++ toString r.count ++
  ",\"page\":" ++ toString r.page ++
  ",\"page_size\":" ++ toString r.page_size ++
  ",\"sequence_ids\":" ++ jsonStrList r.sequence_ids ++
  ",\"errors\":" ++ jsonStrList r.errors ++
  ",\"warnings\":" ++ jsonStrList r.warnings ++ "\x7d"

/-- Outcome of `xmltodict.parse` on a response body: the parsed root
dictionary, or the exception the parser raised (for text that is not
well-formed XML, CPython raises `xml.parsers.expat.ExpatError`). -/
inductive XmlParse where
  | ok (root : List (String × PyVal))
  | raises (e : PyExc)

/-- An httpx response as the operations observe it: success flag, status
code, and the `xmltodict.parse` outcome of its text body. -/
structure HttpResponse where
  is_success : Bool
  status_code : Nat
  bodyXml : XmlParse

/-- The phrase-clipping expression of `_parse_search_results`:
`phrase_not_found if len(phrase_not_found) <= 100 else phrase_not_found[:100] + "..."`,
followed by the f-string interpolation into the error message. -/
def phraseClip (v : PyVal) : Except PyExc String := do
  let n ← pyLen v
  if n ≤ 100 then
    pure (pyRender v)
  else do
    let clipped ← pySliceTo v 100
    pure (pyRender clipped ++ "...")

/-- Error extraction of `_parse_search_results` (lines 101-107): a truthy
`ErrorList` with a truthy `PhraseNotFound` contributes one formatted error. -/
def extractErrors (data : PyVal) : Except PyExc (List String) := do
  let error_list ← data.get "ErrorList" .pyNone
  if error_list.truthy then
    let phrase_not_found ← error_list.get "PhraseNotFound" .pyNone
    if phrase_not_found.truthy then
      let phrase ← phraseClip phrase_not_found
      pure ["Phrase not found: " ++ phrase]
    else
      pure []
  else
    pure []

/-- Warning extraction of `_parse_search_results` (lines 109-114): a truthy
`WarningList` with a truthy `OutputMessage` contributes one warning.  The
code appends the raw parsed value; pydantic then validates the field as
`list[str]`, so a non-string value fails model validation. -/
def extractWarnings (data : PyVal) : Except PyExc (List String) := do
  let warning_list ← data.get "WarningList" .pyNone
  if warning_list.truthy then
    let output_message ← warning_list.get "OutputMessage" .pyNone
    if output_message.truthy then
      match output_message with
      | .pyStr s => pure [s]
      | _ => Except.error (.valueError "1 validation error for SearchResults")
    else
      pure []
  else
    pure []

/-- The fixed missing-root message of `_parse_search_results` line 99. -/
def missingRootMsg : String := "Invalid response from NCBI: missing eSearchResult element"

/-- Model of `_parse_search_results` (find_sequence_records.py lines 94-122),
taking the `xmltodict.parse` outcome of the XML text.  `parsed.get(...)`
on the parse result, the truthiness root check, error/warning extraction
and the `int(...)` coercions follow the source line by line. -/
def _parse_search_results (xml : XmlParse) : Except PyExc SearchResults := do
  let parsed ← match xml with
    | .raises e => Except.error e
    | .ok root => Except.ok root
  let data := (dictLookup parsed "eSearchResult").getD .pyNone
  if !data.truthy then
    Except.error (.valueError missingRootMsg)
  else do
    let errors ← extractErrors data
    let warnings ← extractWarnings data
    let c ← data.get "Count" (.pyInt 0)
    let count ← pyInt c
    let rs ← data.get "RetStart" (.pyInt 0)
    let page ← pyInt rs
    let rm ← data.get "RetMax" (.pyInt 0)
    let page_size ← pyInt rm
    pure { count := count, page := page, page_size := page_size,
           sequence_ids := [], errors := errors, warnings := warnings }

mutual

/-- Model of `json.dumps` on the values `xmltodict.parse` produces
(strings, `None`, dicts, lists), with the default separators.  Sets and
integers never occur in a parsed XML record; for totality they reuse the
list rendering here. -/
def pyValToJson : PyVal → String
  | .pyNone => "null"
  | .pyInt n => toString n
  | .pyStr s => jsonStr s
  | .pyList xs => "[" ++ pyListToJson xs ++ "]"
  | .pyDict es => "\x7b" ++ pyDictToJson es ++ "\x7d"
  | .pySet xs => "[" ++ pyListToJson xs ++ "]"

/-- Comma-joined JSON rendering of list elements. -/
def pyListToJson : List PyVal → String
  | [] => ""
  | [x] => pyValToJson x
  | x :: rest => pyValToJson x ++ ", " ++ pyListToJson rest

/-- Comma-joined JSON rendering of dict entries. -/
def pyDictToJson : List (String × PyVal) → String
  | [] => ""
  | [(k, v)] => jsonStr k ++ ": " ++ pyValToJson v
  | (k, v) :: rest => jsonStr k ++ ": " ++ pyValToJson v ++ ", " ++ pyDictToJson rest

end

/-- An artifact as passed to `process.create_artifact`: MIME type,
description, inline content or referenced URIs, and metadata entries. -/
structure Artifact where
  mimetype : String
  description : String
  content : Option String := none
  uris : List String := []
  metadata : List (String × PyVal)
deriving Repr

/-- Observable actions of a `run` coroutine, in emission order: log lines,
outgoing HTTP GET requests, artifacts, and replies to the caller. -/
inductive Event where
  | log (msg : String)
  | httpGet (url : String)
  | artifact (a : Artifact)
  | reply (msg : String)
deriving Repr

/-- Outcome of one `run` invocation: the emitted events in order, plus the
exception escaping to the caller, if any (`none` means a normal return). -/
structure RunResult where
  events : List Event
  exc : Option PyExc
deriving Repr

/-- Test for an artifact event. -/
def Event.isArtifact : Event → Bool
  | .artifact _ => true
  | _ => false

/-- Test for a reply event. -/
def Event.isReply : Event → Bool
  | .reply _ => true
  | _ => false

/-- Containment of one character list in another at some offset. -/
def subListOf (needle : List Char) : List Char → Bool
  | [] => needle.isEmpty
  | c :: rest => List.isPrefixOf needle (c :: rest) || subListOf needle rest

/-- Character-level substring containment, used to state that a reply text
mentions an operation name. -/
def pyContains (hay needle : String) : Bool :=
  subListOf needle.data hay.data

/-- Artifacts of a run, in emission order. -/
def RunResult.artifacts (r : RunResult) : List Artifact :=
  r.events.filterMap fun ev => match ev with
    | .artifact a => some a
    | _ => none

/-- Reply texts of a run, in emission order. -/
def RunResult.replies (r : RunResult) : List String :=
  r.events.filterMap fun ev => match ev with
    | .reply m => some m
    | _ => none

/-- URLs of the HTTP GET requests a run issued, in order. -/
def RunResult.requests (r : RunResult) : List String :=
  r.events.filterMap fun ev => match ev with
    | .httpGet u => some u
    | _ => none

/-- The ESearch request URL built at find_sequence_records.py line 42 from
the already-encoded terms. -/
def searchUrlOf (terms : String) : String :=
  "https://eutils.ncbi.nlm.nih.gov/entrez/eutils/esearch.fcgi?db=nuccore&term=" ++ terms

/-- The advisory reply text of find_sequence_records.py lines 79-81. -/
def advisoryReplyText : String :=
  "The search failed with the error: \x27Phrase not found\x27. " ++
  "This means the search terms did not match any indexed metadata fields. " ++
  "The agent\x27s capabilities are limited to: " ++
  "(1) find_sequence_records - searches text metadata like organism names, titles, and authors; " ++
  "(2) get_sequence_record - retrieves a record by known accession number."

/-- Model of `find_sequence_records.run` (lines 31-82).  Inputs: the
caller-supplied `search_terms` and the HTTP response the single GET would
receive.  The in-place mutation `parameters.search_terms = ....replace(" ", "+")`
happens before the URL, the artifact description and the artifact metadata
are built, so all three see the encoded terms.  The `except` clauses catch
exactly `DefusedXmlException` and `ValueError`; any other exception
escapes the coroutine. -/
def find_sequence_records_run (search_terms : String) (response : HttpResponse) :
    RunResult :=
  let terms := replaceSpaces search_terms
  let search_url := searchUrlOf terms
  let ev0 := [Event.log ("Sending GET request to " ++ search_url), Event.httpGet search_url]
  if !response.is_success then
    { events := ev0 ++ [.log ("Response code: " ++ toString response.status_code)],
      exc := none }
  else
    match _parse_search_results response.bodyXml with
    | .error (.defusedXmlError m) =>
        { events := ev0 ++ [.log ("Failed to process search results: " ++ m)], exc := none }
    | .error (.valueError m) =>
        { events := ev0 ++ [.log m], exc := none }
    | .error e =>
        { events := ev0, exc := some e }
    | .ok results =>
        let ev1 :=
          if results.count == 0 then
            [Event.log "No matching records found in the NCBI Nucleotide database."] ++
            (if !results.errors.isEmpty then
              [Event.log ("NCBI reported: " ++ String.intercalate ", " results.errors)]
             else []) ++
            (if !results.warnings.isEmpty then
              [Event.log ("Note: " ++ String.intercalate ", " results.warnings)]
             else [])
          else []
        let art : Artifact :=
          { mimetype := "application/json",
            description := "Nucleotide IDs for sequence records matching \"" ++ terms ++ "\"",
            content := some results.model_dump_json,
            metadata := [("data_source", .pyStr "Nucleotide database"),
                         ("api_search_terms", .pySet [.pyStr terms]),
                         ("derived_from", .pyStr search_url)] }
        let ev2 :=
          if results.errors.any (fun e => pyStartsWith e "Phrase not found") then
            [Event.reply advisoryReplyText]
          else []
        { events := ev0 ++ ev1 ++ [Event.artifact art] ++ ev2, exc := none }

/-- The EFetch XML request URL of get_sequence_record.py line 34. -/
def xmlUrlOf (acc : String) : String :=
  "https://eutils.ncbi.nlm.nih.gov/entrez/eutils/efetch.fcgi?db=nuccore&id=" ++
  acc ++ "&rettype=gb&retmode=xml"

/-- The EFetch flat-file request URL of get_sequence_record.py line 69. -/
def flatUrlOf (acc : String) : String :=
  "https://eutils.ncbi.nlm.nih.gov/entrez/eutils/efetch.fcgi?db=nuccore&id=" ++
  acc ++ "&rettype=gb&retmode=text"

/-- The three record fields extracted from the parsed EFetch XML. -/
structure GbFields where
  record_definition : PyVal
  record_primary_accession : PyVal
  record_accession_version : PyVal

/-- Field extraction of get_sequence_record.py lines 47-50:
`json_record.get("GBSet", {}).get("GBSeq", {})` followed by three `.get`
calls defaulting to `None`; a non-dict intermediate raises
`AttributeError`. -/
def extractGbFields (root : List (String × PyVal)) : Except PyExc GbFields := do
  let gbset := (dictLookup root "GBSet").getD (.pyDict [])
  let gbseq ← gbset.get "GBSeq" (.pyDict [])
  let d ← gbseq.get "GBSeq_definition" .pyNone
  let p ← gbseq.get "GBSeq_primary-accession" .pyNone
  let v ← gbseq.get "GBSeq_accession-version" .pyNone
  pure ⟨d, p, v⟩

/-- The fixed opening of the final reply of get_sequence_record.py
lines 88-90. -/
def finalReplyBase : String :=
  "The two artifacts contain the same data but in different formats. The flat file format is more" ++
  " human-friendly, while the JSON format is more machine-friendly. The JSON format was converted from" ++
  " the original XML returned by the API to make it easier to process."

/-- Model of `get_sequence_record.run` (lines 26-93).  Inputs: the
accession number and the two HTTP responses the XML and flat-file GETs
would receive (the second is consulted only if the operation reaches it).
`portal_link` is a Python local assigned only under
`if record_primary_accession:`; the final reply expression reads it, so on
the no-accession path the coroutine raises `UnboundLocalError` after
emitting the second artifact.  Nothing catches exceptions from
`xmltodict.parse` or the `.get` chain here, so they escape. -/
def get_sequence_record_run (accession_number : String)
    (xmlResponse flatResponse : HttpResponse) : RunResult :=
  let xml_url := xmlUrlOf accession_number
  let ev0 := [Event.log ("Retrieving XML nucleotide record from " ++ xml_url),
              Event.httpGet xml_url]
  if !xmlResponse.is_success then
    { events := ev0 ++ [.log ("Response code: " ++ toString xmlResponse.status_code),
                        .reply "Failed to retrieve XML record"],
      exc := none }
  else
    let evA := ev0 ++ [Event.log "Converting XML record to JSON"]
    match xmlResponse.bodyXml with
    | .raises e => { events := evA, exc := some e }
    | .ok root =>
      match extractGbFields root with
      | .error e => { events := evA, exc := some e }
      | .ok f =>
        let portal_link : Option String :=
          if f.record_primary_accession.truthy then
            some ("https://www.ncbi.nlm.nih.gov/nuccore/" ++ pyRender f.record_primary_accession)
          else none
        let evB := match portal_link with
          | some l => [Event.log ("An online version of the record is available at " ++ l)]
          | none => []
        let metadata :=
          [("data_source", PyVal.pyStr "Nucleotide")] ++
          (match portal_link with
            | some l => [("link_to_view_record_on_ncbi_portal", PyVal.pyStr l)]
            | none => []) ++
          (if f.record_primary_accession.truthy then
            [("primary_accession", f.record_primary_accession)] else []) ++
          (if f.record_accession_version.truthy then
            [("accession_version", f.record_accession_version)] else [])
        let art1 : Artifact :=
          { mimetype := "application/json",
            description := "JSON nucleotide sequence record " ++ accession_number ++ ": " ++
                           pyRender f.record_definition,
            content := some (pyValToJson (.pyDict root)),
            metadata := metadata ++ [("derived_from", .pyStr xml_url)] }
        let flat_file_url := flatUrlOf accession_number
        let evC := evA ++ evB ++ [Event.artifact art1] ++
          [Event.log ("Retrieving flat file nucleotide record from " ++ flat_file_url),
           Event.httpGet flat_file_url]
        if !flatResponse.is_success then
          { events := evC ++ [.log ("Response code: " ++ toString flatResponse.status_code),
                              .reply "Failed to retrieve flat file record"],
            exc := none }
        else
          let art2 : Artifact :=
            { mimetype := "text/plain",
              description := "Flat file nucleotide sequence record " ++ accession_number ++ ": " ++
                             pyRender f.record_definition,
              uris := [flat_file_url],
              metadata := metadata }
          match portal_link with
          | none =>
              { events := evC ++ [Event.artifact art2],
                exc := some (.unboundLocalError
                  "cannot access local variable \x27portal_link\x27 where it is not associated with a value") }
          | some l =>
              { events := evC ++ [Event.artifact art2,
                  Event.reply (finalReplyBase ++
                    " The record is also available in the NCBI Nucleotide portal at " ++ l)],
                exc := none }

/-- C1: for every XML input whose parsed form has no eSearchResult root,
`_parse_search_results` fails with the missing-root `ValueError` (no partial
result), and `find_sequence_records.run` on such a response terminates
normally having produced zero artifacts. -/
theorem c1_missing_root_fails_and_no_artifact
    (search_terms : String) (response : HttpResponse)
    (entries : List (String × PyVal))
    (hs : response.is_success = true)
    (hb : response.bodyXml = .ok entries)
    (hmiss : dictLookup entries "eSearchResult" = none) :
    _parse_search_results response.bodyXml = .error (.valueError missingRootMsg) ∧
    (find_sequence_records_run search_terms response).artifacts = [] ∧
    (find_sequence_records_run search_terms response).exc = none := by
  have hp : _parse_search_results response.bodyXml = .error (.valueError missingRootMsg) := by
    rw [hb]
    simp [_parse_search_results, bind, Except.bind, hmiss, Option.getD, PyVal.truthy]
  refine ⟨hp, ?_, ?_⟩
  · unfold find_sequence_records_run
    rw [hs, hp]
    simp [RunResult.artifacts]
  · unfold find_sequence_records_run
    rw [hs, hp]
    simp

/-- Witness for C1 at a concrete input: a parsed body with no eSearchResult
key. -/
theorem c1_witness :
    (⟨true, 200, .ok []⟩ : HttpResponse).is_success = true ∧
    (⟨true, 200, .ok []⟩ : HttpResponse).bodyXml = .ok [] ∧
    dictLookup [] "eSearchResult" = none ∧
    (_parse_search_results (HttpResponse.mk true 200 (.ok [])).bodyXml =
        .error (.valueError missingRootMsg) ∧
      (find_sequence_records_run "x" ⟨true, 200, .ok []⟩).artifacts = [] ∧
      (find_sequence_records_run "x" ⟨true, 200, .ok []⟩).exc = none) :=
  ⟨rfl, rfl, rfl,
    c1_missing_root_fails_and_no_artifact "x" ⟨true, 200, .ok []⟩ [] rfl rfl rfl⟩

/-- C10: a present but falsy eSearchResult value (e.g. the `None` produced by
an empty element) is treated exactly like a missing root, because presence
is tested by truthiness: `_parse_search_results` fails with the
missing-root `ValueError` and never returns an all-defaults result. -/
theorem c10_empty_root_treated_as_missing
    (entries : List (String × PyVal)) (v : PyVal)
    (hv : dictLookup entries "eSearchResult" = some v)
    (ht : v.truthy = false) :
    _parse_search_results (.ok entries) = .error (.valueError missingRootMsg) := by
  simp [_parse_search_results, bind, Except.bind, hv, Option.getD, ht]

/-- Witness for C10 at a concrete input: an empty eSearchResult element,
parsed by xmltodict as `None`. -/
theorem c10_witness :
    dictLookup [("eSearchResult", PyVal.pyNone)] "eSearchResult" = some PyVal.pyNone ∧
    PyVal.pyNone.truthy = false ∧
    _parse_search_results (.ok [("eSearchResult", PyVal.pyNone)]) =
      .error (.valueError missingRootMsg) :=
  ⟨rfl, rfl, c10_empty_root_treated_as_missing [("eSearchResult", PyVal.pyNone)] .pyNone rfl rfl⟩

/-- C9: when the search transport reports a non-success status, the Search
Operation logs the status code and terminates: no artifact, no reply, no
exception to the caller. -/
theorem c9_transport_failure_is_silent
    (search_terms : String) (response : HttpResponse)
    (hs : response.is_success = false) :
    find_sequence_records_run search_terms response =
      { events := [.log ("Sending GET request to " ++ searchUrlOf (replaceSpaces search_terms)),
                   .httpGet (searchUrlOf (replaceSpaces search_terms)),
                   .log ("Response code: " ++ toString response.status_code)],
        exc := none } ∧
    (find_sequence_records_run search_terms response).artifacts = [] ∧
    (find_sequence_records_run search_terms response).replies = [] := by
  have h : find_sequence_records_run search_terms response =
      { events := [.log ("Sending GET request to " ++ searchUrlOf (replaceSpaces search_terms)),
                   .httpGet (searchUrlOf (replaceSpaces search_terms)),
                   .log ("Response code: " ++ toString response.status_code)],
        exc := none } := by
    unfold find_sequence_records_run
    rw [hs]
    simp
  refine ⟨h, ?_, ?_⟩ <;> rw [h] <;> simp [RunResult.artifacts, RunResult.replies]

/-- Witness for C9 at a concrete input: HTTP 500 on the search request. -/
theorem c9_witness :
    (⟨false, 500, .ok []⟩ : HttpResponse).is_success = false ∧
    (find_sequence_records_run "x" ⟨false, 500, .ok []⟩ =
      { events := [.log ("Sending GET request to " ++ searchUrlOf (replaceSpaces "x")),
                   .httpGet (searchUrlOf (replaceSpaces "x")),
                   .log ("Response code: " ++ toString (500 : Nat))],
        exc := none } ∧
      (find_sequence_records_run "x" ⟨false, 500, .ok []⟩).artifacts = [] ∧
      (find_sequence_records_run "x" ⟨false, 500, .ok []⟩).replies = []) :=
  ⟨rfl, c9_transport_failure_is_silent "x" ⟨false, 500, .ok []⟩ rfl⟩

/-- C2: when the XML fetch of the Record-Fetch Operation reports a
non-success status, the operation logs the status code, sends exactly one
(failure) reply, produces zero artifacts, issues no further HTTP request
(in particular never the flat-text fetch), and returns normally. -/
theorem c2_xml_fetch_failure_stops_operation
    (accession_number : String) (xmlResponse flatResponse : HttpResponse)
    (hs : xmlResponse.is_success = false) :
    (get_sequence_record_run accession_number xmlResponse flatResponse).events =
      [.log ("Retrieving XML nucleotide record from " ++ xmlUrlOf accession_number),
       .httpGet (xmlUrlOf accession_number),
       .log ("Response code: " ++ toString xmlResponse.status_code),
       .reply "Failed to retrieve XML record"] ∧
    (get_sequence_record_run accession_number xmlResponse flatResponse).artifacts = [] ∧
    (get_sequence_record_run accession_number xmlResponse flatResponse).replies =
      ["Failed to retrieve XML record"] ∧
    (get_sequence_record_run accession_number xmlResponse flatResponse).requests =
      [xmlUrlOf accession_number] ∧
    (get_sequence_record_run accession_number xmlResponse flatResponse).exc = none := by
  have h : get_sequence_record_run accession_number xmlResponse flatResponse =
      { events := [.log ("Retrieving XML nucleotide record from " ++ xmlUrlOf accession_number),
                   .httpGet (xmlUrlOf accession_number),
                   .log ("Response code: " ++ toString xmlResponse.status_code),
                   .reply "Failed to retrieve XML record"],
        exc := none } := by
    unfold get_sequence_record_run
    rw [hs]
    simp
  rw [h]
  refine ⟨rfl, ?_, ?_, ?_, rfl⟩ <;> simp [RunResult.artifacts, RunResult.replies, RunResult.requests]

/-- Witness for C2 at a concrete input: HTTP 404 on the XML fetch. -/
theorem c2_witness :
    (⟨false, 404, .ok []⟩ : HttpResponse).is_success = false ∧
    ((get_sequence_record_run "AB1" ⟨false, 404, .ok []⟩ ⟨true, 200, .ok []⟩).events =
      [.log ("Retrieving XML nucleotide record from " ++ xmlUrlOf "AB1"),
       .httpGet (xmlUrlOf "AB1"),
       .log ("Response code: " ++ toString (404 : Nat)),
       .reply "Failed to retrieve XML record"] ∧
      (get_sequence_record_run "AB1" ⟨false, 404, .ok []⟩ ⟨true, 200, .ok []⟩).artifacts = [] ∧
      (get_sequence_record_run "AB1" ⟨false, 404, .ok []⟩ ⟨true, 200, .ok []⟩).replies =
        ["Failed to retrieve XML record"] ∧
      (get_sequence_record_run "AB1" ⟨false, 404, .ok []⟩ ⟨true, 200, .ok []⟩).requests =
        [xmlUrlOf "AB1"] ∧
      (get_sequence_record_run "AB1" ⟨false, 404, .ok []⟩ ⟨true, 200, .ok []⟩).exc = none) :=
  ⟨rfl, c2_xml_fetch_failure_stops_operation "AB1" ⟨false, 404, .ok []⟩ ⟨true, 200, .ok []⟩ rfl⟩

/-- Shape of the Search Operation trace on the success path (transport
success and successful normalization): the two opening events, the
count-zero log block, the artifact, and the optional advisory reply. -/
theorem find_run_success_shape
    (search_terms : String) (response : HttpResponse) (r : SearchResults)
    (hs : response.is_success = true)
    (hp : _parse_search_results response.bodyXml = .ok r) :
    find_sequence_records_run search_terms response =
      { events :=
          [Event.log ("Sending GET request to " ++ searchUrlOf (replaceSpaces search_terms)),
           Event.httpGet (searchUrlOf (replaceSpaces search_terms))] ++
          (if r.count == 0 then
            [Event.log "No matching records found in the NCBI Nucleotide database."] ++
            (if !r.errors.isEmpty then
              [Event.log ("NCBI reported: " ++ String.intercalate ", " r.errors)]
             else []) ++
            (if !r.warnings.isEmpty then
              [Event.log ("Note: " ++ String.intercalate ", " r.warnings)]
             else [])
           else []) ++
          [Event.artifact
            { mimetype := "application/json",
              description := "Nucleotide IDs for sequence records matching \"" ++
                replaceSpaces search_terms ++ "\"",
              content := some r.model_dump_json,
              metadata := [("data_source", .pyStr "Nucleotide database"),
                           ("api_search_terms", .pySet [.pyStr (replaceSpaces search_terms)]),
                           ("derived_from", .pyStr (searchUrlOf (replaceSpaces search_terms)))] }] ++
          (if r.errors.any (fun e => pyStartsWith e "Phrase not found") then
            [Event.reply advisoryReplyText]
           else []),
        exc := none } := by
  unfold find_sequence_records_run
  rw [hs, hp]
  rfl

/-- C7: on the success path, if any normalized error starts with
"Phrase not found" the Search Operation sends exactly one advisory reply,
placed immediately after the artifact, whose text mentions both operation
names; with no such error entry, no reply is sent at all. -/
theorem c7_phrase_not_found_advisory_reply
    (search_terms : String) (response : HttpResponse) (r : SearchResults)
    (hs : response.is_success = true)
    (hp : _parse_search_results response.bodyXml = .ok r) :
    (find_sequence_records_run search_terms response).exc = none ∧
    pyContains advisoryReplyText "find_sequence_records" = true ∧
    pyContains advisoryReplyText "get_sequence_record" = true ∧
    (if r.errors.any (fun e => pyStartsWith e "Phrase not found") then
       ∃ pre a, (find_sequence_records_run search_terms response).events =
           pre ++ [Event.artifact a, Event.reply advisoryReplyText] ∧
         pre.all (fun ev => !ev.isReply) = true
     else (find_sequence_records_run search_terms response).replies = []) := by
  rw [find_run_success_shape search_terms response r hs hp]
  refine ⟨rfl, by decide, by decide, ?_⟩
  by_cases hcond : r.errors.any (fun e => pyStartsWith e "Phrase not found") = true
  · rw [if_pos hcond]
    refine ⟨[Event.log ("Sending GET request to " ++ searchUrlOf (replaceSpaces search_terms)),
             Event.httpGet (searchUrlOf (replaceSpaces search_terms))] ++
            (if r.count == 0 then
              [Event.log "No matching records found in the NCBI Nucleotide database."] ++
              (if !r.errors.isEmpty then
                [Event.log ("NCBI reported: " ++ String.intercalate ", " r.errors)] else []) ++
              (if !r.warnings.isEmpty then
                [Event.log ("Note: " ++ String.intercalate ", " r.warnings)] else [])
             else []),
            { mimetype := "application/json",
              description := "Nucleotide IDs for sequence records matching \"" ++
                replaceSpaces search_terms ++ "\"",
              content := some r.model_dump_json,
              metadata := [("data_source", .pyStr "Nucleotide database"),
                           ("api_search_terms", .pySet [.pyStr (replaceSpaces search_terms)]),
                           ("derived_from", .pyStr (searchUrlOf (replaceSpaces search_terms)))] },
            ?_, ?_⟩
    · rw [if_pos hcond]
      simp
    · split_ifs <;> simp [Event.isReply]
  · rw [if_neg hcond, if_neg hcond]
    split_ifs <;>
      simp [RunResult.replies, List.filterMap_append, List.filterMap_cons, List.filterMap_nil]

/-- Witness for C7 at a concrete input whose ESearch body reports
PhraseNotFound. -/
theorem c7_witness :
    (⟨true, 200,
        .ok [("eSearchResult",
              .pyDict [("ErrorList", .pyDict [("PhraseNotFound", .pyStr "zebra")])])]⟩ :
      HttpResponse).is_success = true ∧
    _parse_search_results
        (HttpResponse.mk true 200
          (.ok [("eSearchResult",
                 .pyDict [("ErrorList", .pyDict [("PhraseNotFound", .pyStr "zebra")])])])).bodyXml =
      .ok { count := 0, page := 0, page_size := 0,
            errors := ["Phrase not found: zebra"] } ∧
    ((find_sequence_records_run "x"
        ⟨true, 200,
         .ok [("eSearchResult",
               .pyDict [("ErrorList", .pyDict [("PhraseNotFound", .pyStr "zebra")])])]⟩).exc = none ∧
      pyContains advisoryReplyText "find_sequence_records" = true ∧
      pyContains advisoryReplyText "get_sequence_record" = true ∧
      (if ({ count := 0, page := 0, page_size := 0,
             errors := ["Phrase not found: zebra"] } : SearchResults).errors.any
            (fun e => pyStartsWith e "Phrase not found") then
         ∃ pre a, (find_sequence_records_run "x"
             ⟨true, 200,
              .ok [("eSearchResult",
                    .pyDict [("ErrorList", .pyDict [("PhraseNotFound", .pyStr "zebra")])])]⟩).events =
             pre ++ [Event.artifact a, Event.reply advisoryReplyText] ∧
           pre.all (fun ev => !ev.isReply) = true
       else (find_sequence_records_run "x"
           ⟨true, 200,
            .ok [("eSearchResult",
                  .pyDict [("ErrorList", .pyDict [("PhraseNotFound", .pyStr "zebra")])])]⟩).replies = [])) :=
  ⟨rfl, rfl,
    c7_phrase_not_found_advisory_reply "x"
      ⟨true, 200,
       .ok [("eSearchResult",
             .pyDict [("ErrorList", .pyDict [("PhraseNotFound", .pyStr "zebra")])])]⟩
      { count := 0, page := 0, page_size := 0, errors := ["Phrase not found: zebra"] }
      rfl rfl⟩

/-- C8 counterexample: the search terms stored in the artifact metadata are
the encoded terms (spaces already replaced by plus signs), wrapped in a
one-element set, not the original pre-encoding terms: searching
"homo sapiens" stores "homo+sapiens". -/
theorem c8_counterexample_metadata_terms_encoded :
    ((find_sequence_records_run "homo sapiens"
        ⟨true, 200, .ok [("eSearchResult", .pyDict [("Count", .pyStr "1")])]⟩).artifacts.map
      (fun a => dictLookup a.metadata "api_search_terms")) =
      [some (.pySet [.pyStr "homo+sapiens"])] ∧
    (PyVal.pySet [.pyStr "homo+sapiens"]) ≠ (PyVal.pySet [.pyStr "homo sapiens"]) := by
  refine ⟨rfl, ?_⟩
  intro h
  injection h with h2
  injection h2 with h3 h4
  injection h3 with h5
  exact absurd h5 (by decide)

/-- C8 (amended): on the success path the Search Operation emits exactly one
artifact, MIME application/json, whose body is the JSON serialization of
the SearchResults and whose metadata holds the data source tag, the
encoded (post-replacement) search terms as a one-element set, and the
request URL. -/
theorem c8_success_artifact
    (search_terms : String) (response : HttpResponse) (r : SearchResults)
    (hs : response.is_success = true)
    (hp : _parse_search_results response.bodyXml = .ok r) :
    (find_sequence_records_run search_terms response).artifacts =
      [{ mimetype := "application/json",
         description := "Nucleotide IDs for sequence records matching \"" ++
           replaceSpaces search_terms ++ "\"",
         content := some r.model_dump_json,
         metadata := [("data_source", .pyStr "Nucleotide database"),
                      ("api_search_terms", .pySet [.pyStr (replaceSpaces search_terms)]),
                      ("derived_from", .pyStr (searchUrlOf (replaceSpaces search_terms)))] }] ∧
    (find_sequence_records_run search_terms response).exc = none := by
  rw [find_run_success_shape search_terms response r hs hp]
  refine ⟨?_, rfl⟩
  split_ifs <;>
    simp [RunResult.artifacts, List.filterMap_append, List.filterMap_cons, List.filterMap_nil]

/-- Witness for C8 (amended) at a concrete input. -/
theorem c8_witness :
    (⟨true, 200, .ok [("eSearchResult", .pyDict [("Count", .pyStr "1")])]⟩ :
      HttpResponse).is_success = true ∧
    _parse_search_results
        (HttpResponse.mk true 200
          (.ok [("eSearchResult", .pyDict [("Count", .pyStr "1")])])).bodyXml =
      .ok { count := 1, page := 0, page_size := 0 } ∧
    ((find_sequence_records_run "homo sapiens"
        ⟨true, 200, .ok [("eSearchResult", .pyDict [("Count", .pyStr "1")])]⟩).artifacts =
      [{ mimetype := "application/json",
         description := "Nucleotide IDs for sequence records matching \"" ++
           replaceSpaces "homo sapiens" ++ "\"",
         content := some ({ count := 1, page := 0, page_size := 0 : SearchResults}).model_dump_json,
         metadata := [("data_source", .pyStr "Nucleotide database"),
                      ("api_search_terms", .pySet [.pyStr (replaceSpaces "homo sapiens")]),
                      ("derived_from", .pyStr (searchUrlOf (replaceSpaces "homo sapiens")))] }] ∧
      (find_sequence_records_run "homo sapiens"
        ⟨true, 200, .ok [("eSearchResult", .pyDict [("Count", .pyStr "1")])]⟩).exc = none) :=
  ⟨rfl, rfl,
    c8_success_artifact "homo sapiens"
      ⟨true, 200, .ok [("eSearchResult", .pyDict [("Count", .pyStr "1")])]⟩
      { count := 1, page := 0, page_size := 0 } rfl rfl⟩

/-- C3 evidence: on text that is not well-formed XML, `xmltodict.parse`
raises `ExpatError`; the Search Operation catches only
`DefusedXmlException` and `ValueError`, so the exception escapes to the
caller: no failure log is emitted (the trace ends at the request events)
and no artifact is produced, contradicting the locally-handled design. -/
theorem c3_expat_error_escapes_uncaught :
    (find_sequence_records_run "x"
        ⟨true, 200, .raises (.expatError "syntax error: line 1, column 0")⟩).exc =
      some (.expatError "syntax error: line 1, column 0") ∧
    (find_sequence_records_run "x"
        ⟨true, 200, .raises (.expatError "syntax error: line 1, column 0")⟩).artifacts = [] ∧
    (find_sequence_records_run "x"
        ⟨true, 200, .raises (.expatError "syntax error: line 1, column 0")⟩).events =
      [.log ("Sending GET request to " ++ searchUrlOf "x"), .httpGet (searchUrlOf "x")] :=
  ⟨rfl, rfl, rfl⟩

/-- C4 evidence: with both fetches succeeding but no GBSeq_primary-accession
in the XML record, the Record-Fetch Operation emits its two artifacts and
then raises `UnboundLocalError` reading `portal_link` in the final reply
expression: no final reply is sent and the exception escapes. -/
theorem c4_missing_accession_crashes_before_final_reply :
    (get_sequence_record_run "AB1"
        ⟨true, 200, .ok [("GBSet",
          .pyDict [("GBSeq", .pyDict [("GBSeq_definition", .pyStr "test record")])])]⟩
        ⟨true, 200, .ok []⟩).exc =
      some (.unboundLocalError
        "cannot access local variable \x27portal_link\x27 where it is not associated with a value") ∧
    (get_sequence_record_run "AB1"
        ⟨true, 200, .ok [("GBSet",
          .pyDict [("GBSeq", .pyDict [("GBSeq_definition", .pyStr "test record")])])]⟩
        ⟨true, 200, .ok []⟩).replies = [] ∧
    (get_sequence_record_run "AB1"
        ⟨true, 200, .ok [("GBSet",
          .pyDict [("GBSeq", .pyDict [("GBSeq_definition", .pyStr "test record")])])]⟩
        ⟨true, 200, .ok []⟩).artifacts.length = 2 :=
  ⟨rfl, rfl, rfl⟩

/-- C5 counterexample: a present but non-numeric Count does not default to
zero; `int("abc")` raises `ValueError`, so the normalizer fails instead of
returning a result. -/
theorem c5_counterexample_nonnumeric_count_fails :
    _parse_search_results (.ok [("eSearchResult", .pyDict [("Count", .pyStr "abc")])]) =
      .error (.valueError ("invalid literal for int() with base 10: \x27abc\x27")) := rfl

/-- C5 (amended): when Count, RetStart and RetMax are absent from the
eSearchResult mapping, any successfully normalized result has count, page
and page_size equal to zero (the `0` defaults); a present non-numeric
field instead fails the normalizer. -/
theorem c5_absent_fields_default_to_zero
    (root entries : List (String × PyVal)) (r : SearchResults)
    (hroot : dictLookup root "eSearchResult" = some (.pyDict entries))
    (hC : dictLookup entries "Count" = none)
    (hR : dictLookup entries "RetStart" = none)
    (hM : dictLookup entries "RetMax" = none)
    (h : _parse_search_results (.ok root) = .ok r) :
    r.count = 0 ∧ r.page = 0 ∧ r.page_size = 0 := by
  by_cases hne : entries = []
  · subst hne
    simp [_parse_search_results, bind, Except.bind, hroot, Option.getD, PyVal.truthy] at h
  · have ht : (PyVal.pyDict entries).truthy = true := by
      simp [PyVal.truthy, hne]
    rcases hE : extractErrors (.pyDict entries) with e | errs
    · simp [_parse_search_results, bind, Except.bind, hroot, Option.getD, ht, hE] at h
    · rcases hW : extractWarnings (.pyDict entries) with e | warns
      · simp [_parse_search_results, bind, Except.bind, hroot, Option.getD, ht, hE, hW] at h
      · simp [_parse_search_results, bind, Except.bind, hroot, Option.getD, ht, hE, hW,
              PyVal.get, hC, hR, hM, pyInt, pure, Except.pure] at h
        subst h
        exact ⟨rfl, rfl, rfl⟩

/-- Witness for C5 (amended) at a concrete input: an eSearchResult with an
IdList but none of the three numeric fields. -/
theorem c5_witness :
    dictLookup [("eSearchResult", PyVal.pyDict [("IdList", PyVal.pyStr "7")])] "eSearchResult" =
      some (.pyDict [("IdList", PyVal.pyStr "7")]) ∧
    dictLookup [("IdList", PyVal.pyStr "7")] "Count" = none ∧
    dictLookup [("IdList", PyVal.pyStr "7")] "RetStart" = none ∧
    dictLookup [("IdList", PyVal.pyStr "7")] "RetMax" = none ∧
    _parse_search_results (.ok [("eSearchResult", PyVal.pyDict [("IdList", PyVal.pyStr "7")])]) =
      .ok { count := 0, page := 0, page_size := 0 } ∧
    (({ count := 0, page := 0, page_size := 0 } : SearchResults).count = 0 ∧
      ({ count := 0, page := 0, page_size := 0 } : SearchResults).page = 0 ∧
      ({ count := 0, page := 0, page_size := 0 } : SearchResults).page_size = 0) :=
  ⟨rfl, rfl, rfl, rfl, rfl,
    c5_absent_fields_default_to_zero
      [("eSearchResult", PyVal.pyDict [("IdList", PyVal.pyStr "7")])]
      [("IdList", PyVal.pyStr "7")]
      { count := 0, page := 0, page_size := 0 }
      rfl rfl rfl rfl rfl⟩

/-- Computation of the error extraction when ErrorList holds a nonempty
PhraseNotFound string: one formatted entry, the phrase unchanged when it
has at most 100 characters, and its first 100 characters followed by the
ellipsis marker otherwise. -/
theorem extractErrors_phrase_not_found
    (entries es : List (String × PyVal)) (s : String)
    (hEL : dictLookup entries "ErrorList" = some (.pyDict es))
    (hPNF : dictLookup es "PhraseNotFound" = some (.pyStr s))
    (hs : s ≠ "") :
    extractErrors (.pyDict entries) =
      .ok ["Phrase not found: " ++ (if s.length ≤ 100 then s else pyTake s 100 ++ "...")] := by
  have hsd : s.data ≠ [] := by
    intro hd
    apply hs
    cases s
    simp only at hd
    simp [hd]
  have htEL : (PyVal.pyDict es).truthy = true := by
    have hes : es ≠ [] := by
      intro he
      subst he
      simp [dictLookup] at hPNF
    simp [PyVal.truthy, hes]
  have htS : (PyVal.pyStr s).truthy = true := by
    simp [PyVal.truthy, hsd]
  by_cases hlen : s.length ≤ 100
  · simp [extractErrors, bind, Except.bind, PyVal.get, hEL, Option.getD, htEL, hPNF, htS,
          phraseClip, pyLen, pyRender, hlen, pure, Except.pure]
  · simp [extractErrors, bind, Except.bind, PyVal.get, hEL, Option.getD, htEL, hPNF, htS,
          phraseClip, pyLen, pySliceTo, pyRender, hlen, pure, Except.pure]

/-- C6: for an ESearch body whose ErrorList carries a nonempty
PhraseNotFound string, any successfully normalized result carries exactly
one error entry "Phrase not found: <phrase>", with the phrase unchanged
when its length is at most 100 and its first 100 characters plus an
ellipsis marker otherwise. -/
theorem c6_phrase_not_found_truncation
    (root entries es : List (String × PyVal)) (s : String) (r : SearchResults)
    (hroot : dictLookup root "eSearchResult" = some (.pyDict entries))
    (hEL : dictLookup entries "ErrorList" = some (.pyDict es))
    (hPNF : dictLookup es "PhraseNotFound" = some (.pyStr s))
    (hs : s ≠ "")
    (h : _parse_search_results (.ok root) = .ok r) :
    r.errors =
      ["Phrase not found: " ++ (if s.length ≤ 100 then s else pyTake s 100 ++ "...")] := by
  have hent : entries ≠ [] := by
    intro he
    subst he
    simp [dictLookup] at hEL
  have ht : (PyVal.pyDict entries).truthy = true := by
    simp [PyVal.truthy, hent]
  have hE := extractErrors_phrase_not_found entries es s hEL hPNF hs
  rcases hW : extractWarnings (.pyDict entries) with e | warns
  · simp [_parse_search_results, bind, Except.bind, hroot, ht, hE, hW] at h
  · rcases hc : pyInt ((dictLookup entries "Count").getD (.pyInt 0)) with e | cnt
    · simp [_parse_search_results, bind, Except.bind, hroot, ht, hE, hW,
            PyVal.get, hc] at h
    · rcases hr2 : pyInt ((dictLookup entries "RetStart").getD (.pyInt 0)) with e | pg
      · simp [_parse_search_results, bind, Except.bind, hroot, ht, hE, hW,
              PyVal.get, hc, hr2] at h
      · rcases hm : pyInt ((dictLookup entries "RetMax").getD (.pyInt 0)) with e | ps
        · simp [_parse_search_results, bind, Except.bind, hroot, ht, hE, hW,
                PyVal.get, hc, hr2, hm] at h
        · simp [_parse_search_results, bind, Except.bind, hroot, ht, hE, hW,
                PyVal.get, hc, hr2, hm, pure, Except.pure] at h
          subst h
          rfl

/-- Witness for C6 at a concrete input: PhraseNotFound value "zebra". -/
theorem c6_witness :
    dictLookup [("eSearchResult",
        PyVal.pyDict [("ErrorList", PyVal.pyDict [("PhraseNotFound", PyVal.pyStr "zebra")])])]
      "eSearchResult" =
      some (.pyDict [("ErrorList", PyVal.pyDict [("PhraseNotFound", PyVal.pyStr "zebra")])]) ∧
    dictLookup [("ErrorList", PyVal.pyDict [("PhraseNotFound", PyVal.pyStr "zebra")])]
      "ErrorList" = some (.pyDict [("PhraseNotFound", PyVal.pyStr "zebra")]) ∧
    dictLookup [("PhraseNotFound", PyVal.pyStr "zebra")] "PhraseNotFound" =
      some (.pyStr "zebra") ∧
    "zebra" ≠ "" ∧
    _parse_search_results
        (.ok [("eSearchResult",
          PyVal.pyDict [("ErrorList", PyVal.pyDict [("PhraseNotFound", PyVal.pyStr "zebra")])])]) =
      .ok { count := 0, page := 0, page_size := 0, errors := ["Phrase not found: zebra"] } ∧
    ({ count := 0, page := 0, page_size := 0,
        errors := ["Phrase not found: zebra"] } : SearchResults).errors =
      ["Phrase not found: " ++
        (if "zebra".length ≤ 100 then "zebra" else pyTake "zebra" 100 ++ "...")] :=
  ⟨rfl, rfl, rfl, by decide, rfl,
    c6_phrase_not_found_truncation
      [("eSearchResult",
        PyVal.pyDict [("ErrorList", PyVal.pyDict [("PhraseNotFound", PyVal.pyStr "zebra")])])]
      [("ErrorList", PyVal.pyDict [("PhraseNotFound", PyVal.pyStr "zebra")])]
      [("PhraseNotFound", PyVal.pyStr "zebra")]
      "zebra"
      { count := 0, page := 0, page_size := 0, errors := ["Phrase not found: zebra"] }
      rfl rfl rfl (by decide) rfl⟩

end NCBIAgent
